import Mathlib

/-!
# Cross-account Redshift backup: verification of the polling loops and Lambda handler

Shallow embedding of the three wait-until-terminal loops of the repository
(`_wait_for_snapshot_completion` in scripts/native_snapshot_demo.py,
`wait_for_backup_completion` in scripts/aws_backup_demo.py,
`wait_for_snapshot_completion` in lambda/aca_redshift_backup_lambda.py),
plus the Lambda handler and its snapshot-cleanup routine.

Time is modelled in whole seconds; a status query is instantaneous and the only
time spent is the explicit `time.sleep` calls, so the elapsed-time counter grows
by exactly the poll interval per iteration.  The caller-visible behaviour of a
loop is recorded as an outcome constructor (value returned, or exception raised)
together with the number of status queries performed and the number of sleeps.
-/

namespace AcaBackup

/-- Result of one `describe_cluster_snapshots` call as observed by the snapshot
wait loops: the call raises, returns an empty `Snapshots` list, or returns a
first snapshot with the given `Status` string. -/
inductive SnapshotQuery
  | raisesError
  | noSnapshots
  | status (s : String)
deriving DecidableEq

/-- Result of one `describe_backup_job` call as observed by
`wait_for_backup_completion`: the call raises, or returns a job `State`
together with the `RecoveryPointArn` field. -/
inductive BackupJobQuery
  | raisesError
  | jobState (state recoveryPointArn : String)
deriving DecidableEq

/-- Net effect of one loop body on the poll loop: the loop returns with a
payload, or an exception raised inside the `try` block was caught by the loop
own broad `except` handler (which sleeps and continues), or the body fell
through to `time.sleep` and continues. -/
inductive PollStep (α : Type)
  | success (payload : α)
  | caughtAndSleep
  | sleepContinue
deriving DecidableEq

/-- Whether a `PollStep` is the success case. -/
def PollStep.isSucc {α : Type} : PollStep α → Bool
  | .success _ => true
  | _ => false

/-- Outcome of a bounded poll loop: terminated with a payload, or the time
budget was exhausted.  Both record how many status queries were performed and
how many sleeps were taken. -/
inductive PollRes (α : Type)
  | done (payload : α) (queries sleeps : Nat)
  | exhausted (queries sleeps : Nat)
deriving DecidableEq

/-- The common `while time.time() - start_time < timeout` skeleton shared by the
three wait loops.  `t` is the elapsed time in seconds, `k` the number of
queries performed so far, `s` the number of sleeps so far.  The `fuel`
argument only makes the recursion structural; `pollRun` supplies enough fuel
that the fallback branch is unreachable. -/
def pollAux {α : Type} (step : Nat → PollStep α) (interval timeout : Nat) :
    Nat → Nat → Nat → Nat → PollRes α
  | 0, _, k, s => .exhausted k s
  | fuel + 1, t, k, s =>
    if t < timeout then
      match step k with
      | .success a => .done a (k + 1) s
      | .caughtAndSleep => pollAux step interval timeout fuel (t + interval) (k + 1) (s + 1)
      | .sleepContinue => pollAux step interval timeout fuel (t + interval) (k + 1) (s + 1)
    else .exhausted k s

/-- Run a poll loop from elapsed time zero. -/
def pollRun {α : Type} (step : Nat → PollStep α) (interval timeout : Nat) : PollRes α :=
  pollAux step interval timeout (timeout / interval + 1) 0 0 0

/-- Number of loop iterations still to run when the elapsed time is `t`:
the least `n` with `t + interval * n ≥ timeout`. -/
def remCount (interval timeout t : Nat) : Nat := (timeout - t + interval - 1) / interval

/-- Number of status queries a loop performs when no query ever succeeds. -/
def cap (interval timeout : Nat) : Nat := remCount interval timeout 0

/-- Index of the first successful query at or after `k`, searching `n` further
iterations, together with its payload. -/
def firstSuccessAux {α : Type} (step : Nat → PollStep α) : Nat → Nat → Option (Nat × α)
  | 0, _ => none
  | n + 1, k =>
    match step k with
    | .success a => some (k, a)
    | .caughtAndSleep => firstSuccessAux step n (k + 1)
    | .sleepContinue => firstSuccessAux step n (k + 1)

/-! ## The three wait loops of the repository -/

/-- Classification performed by one body of the loop in
`RedshiftSnapshotDemo._wait_for_snapshot_completion`
(scripts/native_snapshot_demo.py, lines 74-93).  A status of `available`
returns `True`.  A status of `failed` executes
`raise Exception("Snapshot creation failed")`, but that raise happens inside
the `try` block of the same loop, so it is caught by the broad
`except Exception` two lines below, which prints and sleeps 30 seconds: the
loop keeps polling.  Any other status, an empty snapshot list, or an error
from `describe_cluster_snapshots` also leads to a 30 second sleep. -/
def snapshotDemoStep (q : Nat → SnapshotQuery) (k : Nat) : PollStep Bool :=
  match q k with
  | .raisesError => .caughtAndSleep
  | .noSnapshots => .sleepContinue
  | .status s =>
    if s = "available" then .success true
    else if s = "failed" then .caughtAndSleep
    else .sleepContinue

/-- Caller-visible behaviour of `RedshiftSnapshotDemo._wait_for_snapshot_completion`:
it either returns `True` or raises `Exception("Timeout waiting for snapshot completion")`.
Each constructor records the number of status queries performed and the number
of 30 second sleeps taken. -/
inductive SnapshotDemoWait
  | returnsTrue (queries sleeps : Nat)
  | raisesTimeoutError (queries sleeps : Nat)
deriving DecidableEq

/-- `RedshiftSnapshotDemo._wait_for_snapshot_completion` from
scripts/native_snapshot_demo.py: a fixed 30 second poll interval, a `timeout`
parameter (1800 seconds at the call site), and the loop condition
`while time.time() - start_time < timeout`.  On budget exhaustion the source
raises a timeout exception rather than returning. -/
def wait_for_snapshot_completion_demo (q : Nat → SnapshotQuery) (timeout : Nat) :
    SnapshotDemoWait :=
  match pollRun (snapshotDemoStep q) 30 timeout with
  | .done _ k s => .returnsTrue k s
  | .exhausted k s => .raisesTimeoutError k s

/-- Classification performed by one body of the loop in
`AcaRedshiftBackupLambda.wait_for_snapshot_completion`
(lambda/aca_redshift_backup_lambda.py, lines 63-84).  Identical in behaviour to
the demo script loop: `available` returns `True`; the raise on `failed` is
caught by the same loop broad `except`, which logs and sleeps 30 seconds. -/
def lambdaSnapshotStep (q : Nat → SnapshotQuery) (k : Nat) : PollStep Bool :=
  match q k with
  | .raisesError => .caughtAndSleep
  | .noSnapshots => .sleepContinue
  | .status s =>
    if s = "available" then .success true
    else if s = "failed" then .caughtAndSleep
    else .sleepContinue

/-- Caller-visible behaviour of the Lambda
`wait_for_snapshot_completion`: it returns `True` on success and, unlike the
demo scripts, returns `False` (rather than raising) when the budget runs out. -/
inductive LambdaSnapshotWait
  | returnsTrue (queries sleeps : Nat)
  | returnsFalse (queries sleeps : Nat)
deriving DecidableEq

/-- `AcaRedshiftBackupLambda.wait_for_snapshot_completion` from
lambda/aca_redshift_backup_lambda.py: 30 second interval,
`max_wait_seconds = max_wait_minutes * 60`, returns `False` on budget
exhaustion. -/
def wait_for_snapshot_completion_lambda (q : Nat → SnapshotQuery) (max_wait_minutes : Nat) :
    LambdaSnapshotWait :=
  match pollRun (lambdaSnapshotStep q) 30 (max_wait_minutes * 60) with
  | .done _ k s => .returnsTrue k s
  | .exhausted k s => .returnsFalse k s

/-- Classification performed by one body of the loop in
`RedshiftAwsBackupDemo.wait_for_backup_completion`
(scripts/aws_backup_demo.py, lines 219-237).  `COMPLETED` returns the
`RecoveryPointArn`.  `FAILED`, `ABORTED` and `EXPIRED` execute
`raise Exception(...)` inside the `try` block of the same loop, so the raise is
caught by the broad `except Exception` below it, which prints and sleeps 60
seconds: the loop keeps polling.  Any other state or an error from
`describe_backup_job` also leads to a 60 second sleep. -/
def backupJobStep (q : Nat → BackupJobQuery) (k : Nat) : PollStep String :=
  match q k with
  | .raisesError => .caughtAndSleep
  | .jobState s arn =>
    if s = "COMPLETED" then .success arn
    else if s = "FAILED" ∨ s = "ABORTED" ∨ s = "EXPIRED" then .caughtAndSleep
    else .sleepContinue

/-- Caller-visible behaviour of `wait_for_backup_completion`: it either returns
the recovery point ARN or raises
`Exception("Timeout waiting for backup completion")`. -/
inductive BackupJobWait
  | returnsRecoveryPointArn (arn : String) (queries sleeps : Nat)
  | raisesTimeoutError (queries sleeps : Nat)
deriving DecidableEq

/-- `RedshiftAwsBackupDemo.wait_for_backup_completion` from
scripts/aws_backup_demo.py: a fixed 60 second poll interval, a `timeout`
parameter (3600 seconds by default), raising a timeout exception on budget
exhaustion. -/
def wait_for_backup_completion (q : Nat → BackupJobQuery) (timeout : Nat) : BackupJobWait :=
  match pollRun (backupJobStep q) 60 timeout with
  | .done arn k s => .returnsRecoveryPointArn arn k s
  | .exhausted k s => .raisesTimeoutError k s

/-- Shift a status stream: the view of the same underlying status history seen
by an invocation that starts after `o` earlier observations. -/
def shiftQuery {α : Type} (o : Nat) (q : Nat → α) : Nat → α := fun k => q (o + k)

/-- Whether a snapshot-query observation is a terminal status (one after which
the snapshot state never changes): `available` or `failed`. -/
def SnapshotQuery.isTerminalStatus : SnapshotQuery → Bool
  | .status s => s == "available" || s == "failed"
  | _ => false

/-- Whether a backup-job observation is a terminal state:
`COMPLETED`, `FAILED`, `ABORTED` or `EXPIRED`. -/
def BackupJobQuery.isTerminalState : BackupJobQuery → Bool
  | .jobState s _ => s == "COMPLETED" || s == "FAILED" || s == "ABORTED" || s == "EXPIRED"
  | _ => false

/-! ## The Lambda handler and its cleanup routine -/

/-- One entry of the `Snapshots` list returned by `describe_cluster_snapshots`
during cleanup: identifier plus `SnapshotCreateTime` as an epoch timestamp in
whole seconds. -/
structure SnapshotInfo where
  snapshotIdentifier : String
  snapshotCreateTime : Int
deriving DecidableEq

/-- Environment oracle for one Lambda invocation: the behaviour of every AWS
call the handler can make.  `initFailure` is a failure of the
`AcaRedshiftBackupLambda()` constructor (boto3 clients, STS call);
`createFailure` a failure of `create_cluster_snapshot`; `timestamp` the
`datetime.now().strftime("%Y%m%d-%H%M%S")` value used to name the snapshot;
`snapshotQuery` the behaviour of `describe_cluster_snapshots` on the k-th poll
of the wait loop; `shareFailure` a failure of `authorize_snapshot_access`;
`listSnapshots` the manual snapshots of the cluster returned by
`describe_cluster_snapshots` during cleanup (`none` when that call raises);
`deleteFails id` whether `delete_cluster_snapshot` on `id` raises; `now` the
`datetime.now().timestamp()` used for the retention cutoff. -/
structure AwsEnv where
  initFailure : Option String
  createFailure : Option String
  timestamp : String
  snapshotQuery : Nat → SnapshotQuery
  shareFailure : Option String
  listSnapshots : Option (List SnapshotInfo)
  deleteFails : String → Bool
  now : Int

/-- `AcaRedshiftBackupLambda.create_manual_snapshot`: names the snapshot
`aca-lambda-snapshot-{timestamp}`, calls `create_cluster_snapshot` and
re-raises on failure. -/
def create_manual_snapshot (env : AwsEnv) : Except String String :=
  match env.createFailure with
  | some e => .error e
  | none => .ok ("aca-lambda-snapshot-" ++ env.timestamp)

/-- `AcaRedshiftBackupLambda.share_snapshot_with_account`: returns `True` on
success and `False` when `authorize_snapshot_access` raises. -/
def share_snapshot_with_account (env : AwsEnv) : Bool :=
  match env.shareFailure with
  | some _ => false
  | none => true

/-- `cutoff_time = datetime.now().timestamp() - (retention_days * 24 * 3600)`. -/
def cutoffTime (env : AwsEnv) (retention_days : Nat) : Int :=
  env.now - (retention_days : Int) * 24 * 3600

/-- One iteration of the `for snapshot in response.get('Snapshots', [])` loop of
`cleanup_old_snapshots`: the accumulator is the pair of `deleted_count` and the
list of snapshot identifiers for which a `delete_cluster_snapshot` request was
issued so far.  A failing delete is logged as a warning and does not increment
the count. -/
def cleanupStep (env : AwsEnv) (cutoff : Int) (acc : Nat × List String)
    (snapshot : SnapshotInfo) : Nat × List String :=
  if snapshot.snapshotIdentifier.startsWith "aca-lambda-snapshot-" then
    if snapshot.snapshotCreateTime < cutoff then
      if env.deleteFails snapshot.snapshotIdentifier then
        (acc.1, acc.2 ++ [snapshot.snapshotIdentifier])
      else
        (acc.1 + 1, acc.2 ++ [snapshot.snapshotIdentifier])
    else acc
  else acc

/-- `AcaRedshiftBackupLambda.cleanup_old_snapshots`
(lambda/aca_redshift_backup_lambda.py, lines 107-143).  Returns the
`deleted_count` the source returns, paired with the list of snapshot
identifiers for which a delete request was issued (the observable side
effect).  When the initial `describe_cluster_snapshots` raises, the outer
`except` returns 0 and nothing is deleted.  The `cluster_identifier` argument
only scopes the AWS-side listing, which the environment already provides. -/
def cleanup_old_snapshots (env : AwsEnv) (cluster_identifier : String)
    (retention_days : Nat) : Nat × List String :=
  match env.listSnapshots with
  | none => (0, [])
  | some snaps => snaps.foldl (cleanupStep env (cutoffTime env retention_days)) (0, [])

/-- Python truthiness of the `target_account_id` event value:
`event.get('target_account_id')` is falsy when the key is absent or the value
is the empty string. -/
def truthyStr : Option String → Bool
  | none => false
  | some s => s != ""

/-- The event dictionary accepted by `lambda_handler`, restricted to
JSON-shaped values of the documented types. -/
structure Event where
  cluster_identifier : Option String
  target_account_id : Option String
  retention_days : Option Nat
  wait_for_completion : Option Bool

/-- The success dictionary built by `lambda_handler` (the `statusCode: 200`
shape).  The human-readable timestamp field is not modelled. -/
structure HandlerOk where
  snapshot_id : String
  cluster_identifier : String
  target_account_id : String
  status : String
  shared : Option Bool
  cleaned_up_snapshots : Nat
deriving DecidableEq

/-- Value returned by `lambda_handler`: either the `statusCode: 200` dictionary
or the `statusCode: 500` dictionary with an error message.  The handler never
lets an exception escape: its whole body is wrapped in
`try ... except Exception`. -/
inductive HandlerResult
  | ok (body : HandlerOk)
  | err (message : String)
deriving DecidableEq

/-- The `statusCode` field of the returned dictionary. -/
def HandlerResult.statusCode : HandlerResult → Nat
  | .ok _ => 200
  | .err _ => 500

/-- Result of a handler invocation together with whether
`create_cluster_snapshot` was ever invoked (snapshot creation initiated). -/
structure HandlerTrace where
  result : HandlerResult
  createCalled : Bool
deriving DecidableEq

/-- The `status` and `shared` fields the handler stores in its result after a
successful snapshot creation: when `wait_for_completion` is set it runs the
wait loop (10 minute budget) and, on completion, shares the snapshot;
otherwise the snapshot is left to complete asynchronously. -/
def waitShareStatus (env : AwsEnv) (wait_for_completion : Bool) : String × Option Bool :=
  if wait_for_completion then
    match wait_for_snapshot_completion_lambda env.snapshotQuery 10 with
    | .returnsTrue _ _ =>
      let sh := share_snapshot_with_account env
      (if sh then "completed_and_shared" else "completed_not_shared", some sh)
    | .returnsFalse _ _ => ("snapshot_in_progress", none)
  else ("snapshot_initiated_async", none)

/-- `lambda_handler` from lambda/aca_redshift_backup_lambda.py (lines 145-212).
Mirrors the source control flow: defaults for the event fields, the
`ValueError` on a falsy `target_account_id` (raised before any AWS client is
built), handler construction, snapshot creation, the optional wait / share
branch with its status strings, cleanup, and the outer `except Exception`
that converts any raised error into the `statusCode: 500` dictionary. -/
def lambda_handler (env : AwsEnv) (event : Event) : HandlerTrace :=
  let cluster_identifier := event.cluster_identifier.getD "aca-redshift-cluster"
  let retention_days := event.retention_days.getD 7
  let wait_for_completion := event.wait_for_completion.getD false
  if truthyStr event.target_account_id = false then
    { result := .err "target_account_id is required", createCalled := false }
  else
    match env.initFailure with
    | some e => { result := .err e, createCalled := false }
    | none =>
      match create_manual_snapshot env with
      | .error e => { result := .err e, createCalled := true }
      | .ok snapshot_id =>
        let statusShared := waitShareStatus env wait_for_completion
        { result := .ok
            { snapshot_id := snapshot_id
              cluster_identifier := cluster_identifier
              target_account_id := event.target_account_id.getD ""
              status := statusShared.1
              shared := statusShared.2
              cleaned_up_snapshots :=
                (cleanup_old_snapshots env cluster_identifier retention_days).1 }
          createCalled := true }

/-- A snapshot is eligible for deletion by `cleanup_old_snapshots` when its
identifier carries the Lambda prefix and it is older than the cutoff. -/
def eligibleForCleanup (cutoff : Int) (s : SnapshotInfo) : Bool :=
  s.snapshotIdentifier.startsWith "aca-lambda-snapshot-" &&
    decide (s.snapshotCreateTime < cutoff)


/-- A fully healthy AWS environment used to exercise the handler concretely. -/
def envHappy : AwsEnv :=
  { initFailure := none
    createFailure := none
    timestamp := "20250101-120000"
    snapshotQuery := fun _ => .status "available"
    shareFailure := none
    listSnapshots := some []
    deleteFails := fun _ => false
    now := 1700000000 }

/-- An environment whose cleanup-time `describe_cluster_snapshots` raises. -/
def envListingFails : AwsEnv :=
  { envHappy with listSnapshots := none }

/-- An event with no `target_account_id`. -/
def eventNoTarget : Event :=
  { cluster_identifier := none
    target_account_id := none
    retention_days := none
    wait_for_completion := none }

/-- A well-formed event that does not ask to wait for completion. -/
def eventWithTarget : Event :=
  { cluster_identifier := some "aca-redshift-cluster"
    target_account_id := some "058264155998"
    retention_days := some 7
    wait_for_completion := some false }

lemma cap_eq (interval timeout : Nat) : cap interval timeout = (timeout + interval - 1) / interval := by
  unfold cap remCount
  rw [Nat.sub_zero]


lemma firstSuccessAux_zero {α : Type} (step : Nat → PollStep α) (k : Nat) :
    firstSuccessAux step 0 k = none := rfl

lemma firstSuccessAux_succ {α : Type} (step : Nat → PollStep α) (n k : Nat) :
    firstSuccessAux step (n + 1) k =
      (match step k with
       | .success a => some (k, a)
       | .caughtAndSleep => firstSuccessAux step n (k + 1)
       | .sleepContinue => firstSuccessAux step n (k + 1)) := rfl

lemma firstSuccessAux_ge {α : Type} (step : Nat → PollStep α) :
    ∀ n k j a, firstSuccessAux step n k = some (j, a) → k ≤ j := by
  intro n
  induction n with
  | zero => intro k j a h; rw [firstSuccessAux_zero] at h; exact absurd h (by simp)
  | succ n ih =>
    intro k j a h
    rw [firstSuccessAux_succ] at h
    cases hs : step k with
    | success b =>
      rw [hs] at h
      simp at h
      omega
    | caughtAndSleep =>
      rw [hs] at h
      have := ih (k + 1) j a h
      omega
    | sleepContinue =>
      rw [hs] at h
      have := ih (k + 1) j a h
      omega

lemma firstSuccessAux_eq_none {α : Type} (step : Nat → PollStep α) :
    ∀ n k, (∀ i, i < n → (step (k + i)).isSucc = false) → firstSuccessAux step n k = none := by
  intro n
  induction n with
  | zero => intro k _; rfl
  | succ n ih =>
    intro k h
    rw [firstSuccessAux_succ]
    have h0 := h 0 (by omega)
    rw [Nat.add_zero] at h0
    cases hs : step k with
    | success a =>
      rw [hs] at h0
      simp [PollStep.isSucc] at h0
    | caughtAndSleep =>
      exact ih (k + 1) (fun i hi => by
        have hh := h (i + 1) (by omega)
        rwa [show k + (i + 1) = k + 1 + i by omega] at hh)
    | sleepContinue =>
      exact ih (k + 1) (fun i hi => by
        have hh := h (i + 1) (by omega)
        rwa [show k + (i + 1) = k + 1 + i by omega] at hh)

lemma firstSuccessAux_eq_some {α : Type} (step : Nat → PollStep α) :
    ∀ j n k a, (∀ i, i < j → (step (k + i)).isSucc = false) → step (k + j) = .success a →
      j < n → firstSuccessAux step n k = some (k + j, a) := by
  intro j
  induction j with
  | zero =>
    intro n k a _ hj hn
    cases n with
    | zero => omega
    | succ n =>
      rw [firstSuccessAux_succ]
      rw [Nat.add_zero] at hj
      rw [hj]
      simp
  | succ j ih =>
    intro n k a h hj hn
    cases n with
    | zero => omega
    | succ n =>
      rw [firstSuccessAux_succ]
      have h0 := h 0 (by omega)
      rw [Nat.add_zero] at h0
      have harg : ∀ i, i < j → (step (k + 1 + i)).isSucc = false := fun i hi => by
        have hh := h (i + 1) (by omega)
        rwa [show k + (i + 1) = k + 1 + i by omega] at hh
      have hj2 : step (k + 1 + j) = PollStep.success a := by
        rwa [show k + 1 + j = k + (j + 1) by omega]
      have hlt : j < n := by omega
      have hres := ih n (k + 1) a harg hj2 hlt
      have hidx : k + 1 + j = k + (j + 1) := by omega
      rw [hidx] at hres
      cases hs : step k with
      | success b => rw [hs] at h0; simp [PollStep.isSucc] at h0
      | caughtAndSleep => exact hres
      | sleepContinue => exact hres

lemma remCount_zero (interval timeout t : Nat) (hi : 0 < interval) (ht : timeout ≤ t) :
    remCount interval timeout t = 0 := by
  unfold remCount
  have h1 : timeout - t = 0 := by omega
  rw [h1]
  exact Nat.div_eq_of_lt (by omega)

lemma remCount_succ (interval timeout t : Nat) (hi : 0 < interval) (ht : t < timeout) :
    remCount interval timeout t = remCount interval timeout (t + interval) + 1 := by
  unfold remCount
  have hd : 0 < timeout - t := by omega
  rcases le_or_lt (timeout - t) interval with hle | hlt
  · have h1 : timeout - t + interval - 1 = (timeout - t - 1) + 1 * interval := by omega
    have h2 : timeout - (t + interval) = 0 := by omega
    rw [h1, Nat.add_mul_div_right _ _ hi, h2]
    have h3 : timeout - t - 1 < interval := by omega
    have h4 : 0 + interval - 1 < interval := by omega
    rw [Nat.div_eq_of_lt h3, Nat.div_eq_of_lt h4]
  · have h1 : timeout - t + interval - 1 = (timeout - t - 1) + 1 * interval := by omega
    have h2 : timeout - (t + interval) + interval - 1 = timeout - t - 1 := by omega
    rw [h1, Nat.add_mul_div_right _ _ hi, h2]

lemma pollAux_zero {α : Type} (step : Nat → PollStep α) (interval timeout t k s : Nat) :
    pollAux step interval timeout 0 t k s = .exhausted k s := rfl

lemma pollAux_succ {α : Type} (step : Nat → PollStep α) (interval timeout fuel t k s : Nat) :
    pollAux step interval timeout (fuel + 1) t k s =
      (if t < timeout then
        match step k with
        | .success a => .done a (k + 1) s
        | .caughtAndSleep => pollAux step interval timeout fuel (t + interval) (k + 1) (s + 1)
        | .sleepContinue => pollAux step interval timeout fuel (t + interval) (k + 1) (s + 1)
       else .exhausted k s) := rfl

lemma pollAux_char {α : Type} (step : Nat → PollStep α) (interval timeout : Nat)
    (hi : 0 < interval) :
    ∀ fuel t k s, timeout ≤ t + interval * fuel →
      pollAux step interval timeout fuel t k s =
        (match firstSuccessAux step (remCount interval timeout t) k with
         | some (j, a) => PollRes.done a (j + 1) (s + (j - k))
         | none => PollRes.exhausted (k + remCount interval timeout t)
             (s + remCount interval timeout t)) := by
  intro fuel
  induction fuel with
  | zero =>
    intro t k s h
    rw [Nat.mul_zero, Nat.add_zero] at h
    rw [remCount_zero interval timeout t hi h]
    rw [pollAux_zero, firstSuccessAux_zero]
    simp
  | succ fuel ih =>
    intro t k s h
    by_cases ht : t < timeout
    · have hrem := remCount_succ interval timeout t hi ht
      have hf : timeout ≤ t + interval + interval * fuel := by
        rw [Nat.mul_succ] at h
        omega
      rw [pollAux_succ, if_pos ht]
      cases hs : step k with
      | success a =>
        have hscrut : firstSuccessAux step (remCount interval timeout t) k = some (k, a) := by
          rw [hrem, firstSuccessAux_succ, hs]
        rw [hscrut]
        simp
      | caughtAndSleep =>
        have hscrut : firstSuccessAux step (remCount interval timeout t) k
            = firstSuccessAux step (remCount interval timeout (t + interval)) (k + 1) := by
          rw [hrem, firstSuccessAux_succ, hs]
        rw [hscrut, ih (t + interval) (k + 1) (s + 1) hf]
        cases hfs : firstSuccessAux step (remCount interval timeout (t + interval)) (k + 1) with
        | none => simp [hrem]; omega
        | some p =>
          obtain ⟨j, a⟩ := p
          have hge := firstSuccessAux_ge step _ _ _ _ hfs
          simp; omega
      | sleepContinue =>
        have hscrut : firstSuccessAux step (remCount interval timeout t) k
            = firstSuccessAux step (remCount interval timeout (t + interval)) (k + 1) := by
          rw [hrem, firstSuccessAux_succ, hs]
        rw [hscrut, ih (t + interval) (k + 1) (s + 1) hf]
        cases hfs : firstSuccessAux step (remCount interval timeout (t + interval)) (k + 1) with
        | none => simp [hrem]; omega
        | some p =>
          obtain ⟨j, a⟩ := p
          have hge := firstSuccessAux_ge step _ _ _ _ hfs
          simp; omega
    · have hle : timeout ≤ t := by omega
      rw [remCount_zero interval timeout t hi hle]
      rw [pollAux_succ, if_neg ht, firstSuccessAux_zero]
      simp

lemma fuel_sufficient (interval timeout : Nat) (hi : 0 < interval) :
    timeout ≤ interval * (timeout / interval + 1) :=
  calc timeout = interval * (timeout / interval) + timeout % interval :=
        (Nat.div_add_mod timeout interval).symm
    _ ≤ interval * (timeout / interval) + interval :=
        Nat.add_le_add_left (Nat.le_of_lt (Nat.mod_lt _ hi)) _
    _ = interval * (timeout / interval + 1) := by rw [Nat.mul_add, Nat.mul_one]

lemma pollRun_char {α : Type} (step : Nat → PollStep α) (interval timeout : Nat)
    (hi : 0 < interval) :
    pollRun step interval timeout =
      (match firstSuccessAux step (cap interval timeout) 0 with
       | some (j, a) => PollRes.done a (j + 1) j
       | none => PollRes.exhausted (cap interval timeout) (cap interval timeout)) := by
  unfold pollRun
  rw [pollAux_char step interval timeout hi _ 0 0 0
    (by rw [Nat.zero_add]; exact fuel_sufficient interval timeout hi)]
  unfold cap
  cases hfs : firstSuccessAux step (remCount interval timeout 0) 0 with
  | none => simp
  | some p =>
    obtain ⟨j, a⟩ := p
    simp

lemma wait_demo_char (q : Nat → SnapshotQuery) (timeout : Nat) :
    wait_for_snapshot_completion_demo q timeout =
      (match firstSuccessAux (snapshotDemoStep q) (cap 30 timeout) 0 with
       | some (j, _) => SnapshotDemoWait.returnsTrue (j + 1) j
       | none => SnapshotDemoWait.raisesTimeoutError (cap 30 timeout) (cap 30 timeout)) := by
  unfold wait_for_snapshot_completion_demo
  rw [pollRun_char (snapshotDemoStep q) 30 timeout (by omega)]
  cases hfs : firstSuccessAux (snapshotDemoStep q) (cap 30 timeout) 0 with
  | none => rfl
  | some p =>
    obtain ⟨j, a⟩ := p
    rfl

lemma wait_lambda_char (q : Nat → SnapshotQuery) (m : Nat) :
    wait_for_snapshot_completion_lambda q m =
      (match firstSuccessAux (lambdaSnapshotStep q) (cap 30 (m * 60)) 0 with
       | some (j, _) => LambdaSnapshotWait.returnsTrue (j + 1) j
       | none => LambdaSnapshotWait.returnsFalse (cap 30 (m * 60)) (cap 30 (m * 60))) := by
  unfold wait_for_snapshot_completion_lambda
  rw [pollRun_char (lambdaSnapshotStep q) 30 (m * 60) (by omega)]
  cases hfs : firstSuccessAux (lambdaSnapshotStep q) (cap 30 (m * 60)) 0 with
  | none => rfl
  | some p =>
    obtain ⟨j, a⟩ := p
    rfl

lemma wait_backup_char (q : Nat → BackupJobQuery) (timeout : Nat) :
    wait_for_backup_completion q timeout =
      (match firstSuccessAux (backupJobStep q) (cap 60 timeout) 0 with
       | some (j, arn) => BackupJobWait.returnsRecoveryPointArn arn (j + 1) j
       | none => BackupJobWait.raisesTimeoutError (cap 60 timeout) (cap 60 timeout)) := by
  unfold wait_for_backup_completion
  rw [pollRun_char (backupJobStep q) 60 timeout (by omega)]
  cases hfs : firstSuccessAux (backupJobStep q) (cap 60 timeout) 0 with
  | none => rfl
  | some p =>
    obtain ⟨j, a⟩ := p
    rfl

lemma waitShareStatus_cases (env : AwsEnv) (w : Bool) :
    (waitShareStatus env w).1 = "completed_and_shared"
    ∨ (waitShareStatus env w).1 = "completed_not_shared"
    ∨ (waitShareStatus env w).1 = "snapshot_in_progress"
    ∨ (waitShareStatus env w).1 = "snapshot_initiated_async" := by
  unfold waitShareStatus
  cases w with
  | false => simp
  | true =>
    simp only [if_true]
    cases hres : wait_for_snapshot_completion_lambda env.snapshotQuery 10 with
    | returnsTrue k s =>
      by_cases hs : share_snapshot_with_account env = true
      · simp [hs]
      · simp [hs]
    | returnsFalse k s => simp

lemma lambda_handler_no_target (env : AwsEnv) (event : Event)
    (h : truthyStr event.target_account_id = false) :
    lambda_handler env event =
      { result := .err "target_account_id is required", createCalled := false } := by
  simp [lambda_handler, h]

lemma lambda_handler_init_failure (env : AwsEnv) (event : Event) (e : String)
    (ht : truthyStr event.target_account_id = true) (hi : env.initFailure = some e) :
    lambda_handler env event = { result := .err e, createCalled := false } := by
  simp [lambda_handler, ht, hi]

lemma lambda_handler_create_failure (env : AwsEnv) (event : Event) (e : String)
    (ht : truthyStr event.target_account_id = true) (hi : env.initFailure = none)
    (hc : env.createFailure = some e) :
    lambda_handler env event = { result := .err e, createCalled := true } := by
  simp [lambda_handler, create_manual_snapshot, ht, hi, hc]

lemma lambda_handler_ok_eq (env : AwsEnv) (event : Event)
    (ht : truthyStr event.target_account_id = true)
    (hi : env.initFailure = none) (hc : env.createFailure = none) :
    lambda_handler env event =
      { result := HandlerResult.ok
          { snapshot_id := "aca-lambda-snapshot-" ++ env.timestamp
            cluster_identifier := event.cluster_identifier.getD "aca-redshift-cluster"
            target_account_id := event.target_account_id.getD ""
            status := (waitShareStatus env (event.wait_for_completion.getD false)).1
            shared := (waitShareStatus env (event.wait_for_completion.getD false)).2
            cleaned_up_snapshots :=
              (cleanup_old_snapshots env (event.cluster_identifier.getD "aca-redshift-cluster")
                (event.retention_days.getD 7)).1 }
        createCalled := true } := by
  simp [lambda_handler, create_manual_snapshot, ht, hi, hc]

lemma cleanup_foldl (env : AwsEnv) (cutoff : Int) :
    ∀ (l : List SnapshotInfo) (acc : Nat × List String),
      l.foldl (cleanupStep env cutoff) acc =
        (acc.1 + ((l.filter (eligibleForCleanup cutoff)).filter
            (fun s => !env.deleteFails s.snapshotIdentifier)).length,
         acc.2 ++ (l.filter (eligibleForCleanup cutoff)).map SnapshotInfo.snapshotIdentifier) := by
  intro l
  induction l with
  | nil => intro acc; simp
  | cons sh tl ih =>
    intro acc
    rw [List.foldl_cons, ih]
    by_cases h1 : sh.snapshotIdentifier.startsWith "aca-lambda-snapshot-" = true
    · by_cases h2 : sh.snapshotCreateTime < cutoff
      · by_cases h3 : env.deleteFails sh.snapshotIdentifier = true
        · simp [cleanupStep, eligibleForCleanup, h1, h2, h3]
        · simp [cleanupStep, eligibleForCleanup, h1, h2, h3]
          omega
      · simp [cleanupStep, eligibleForCleanup, h1, h2]
    · simp [cleanupStep, eligibleForCleanup, h1]

/-! ## Claims -/

/-- C1.  The claim states that a failure-terminal status makes the loop return
the Failed outcome immediately with no further queries.  The code does not do
this: in all three loops the `raise Exception(...)` executed on a failure
status sits inside the `try` block of the same loop, so the loop own broad
`except Exception` handler catches it, sleeps and keeps polling.  This theorem
evaluates the three loops on a status query that reports the failure status on
every poll: each performs its full budget of queries (2, not 1) and then
signals timeout instead of failure. -/
theorem c1_failure_status_swallowed_eval :
    wait_for_snapshot_completion_demo (fun _ => SnapshotQuery.status "failed") 60
      = SnapshotDemoWait.raisesTimeoutError 2 2
    ∧ wait_for_snapshot_completion_lambda (fun _ => SnapshotQuery.status "failed") 1
      = LambdaSnapshotWait.returnsFalse 2 2
    ∧ wait_for_backup_completion (fun _ => BackupJobQuery.jobState "FAILED" "") 120
      = BackupJobWait.raisesTimeoutError 2 2 := by
  decide

/-- C2 counterexample.  The claim states that on budget exhaustion the loop
returns the TimedOut outcome rather than raising.  In the demo scripts the
budget-exhaustion outcome is `raise Exception("Timeout waiting for ...")`
(modelled by the `raisesTimeoutError` constructor), not a returned value:
with a status query that stays non-terminal, both script loops end in the
raising constructor. -/
theorem c2_counterexample_demo_raises_on_timeout :
    wait_for_snapshot_completion_demo (fun _ => SnapshotQuery.status "creating") 60
      = SnapshotDemoWait.raisesTimeoutError 2 2
    ∧ wait_for_backup_completion (fun _ => BackupJobQuery.jobState "RUNNING" "") 60
      = BackupJobWait.raisesTimeoutError 1 1 := by
  decide

/-- C2, amended.  When the time budget is exhausted without a successful
observation, every loop stops polling after `cap interval timeout` queries and
signals timeout — but only the Lambda wait returns the TimedOut outcome as a
value (`False`); the two demo scripts raise a timeout exception instead of
returning. -/
theorem c2_amended_timeout_outcomes (qd ql : Nat → SnapshotQuery) (qb : Nat → BackupJobQuery)
    (td m tb : Nat)
    (hd : ∀ k, (snapshotDemoStep qd k).isSucc = false)
    (hl : ∀ k, (lambdaSnapshotStep ql k).isSucc = false)
    (hb : ∀ k, (backupJobStep qb k).isSucc = false) :
    wait_for_snapshot_completion_demo qd td
        = SnapshotDemoWait.raisesTimeoutError (cap 30 td) (cap 30 td)
    ∧ wait_for_snapshot_completion_lambda ql m
        = LambdaSnapshotWait.returnsFalse (cap 30 (m * 60)) (cap 30 (m * 60))
    ∧ wait_for_backup_completion qb tb
        = BackupJobWait.raisesTimeoutError (cap 60 tb) (cap 60 tb) := by
  refine ⟨?_, ?_, ?_⟩
  · rw [wait_demo_char,
      firstSuccessAux_eq_none (snapshotDemoStep qd) (cap 30 td) 0 (fun i _ => hd (0 + i))]
  · rw [wait_lambda_char,
      firstSuccessAux_eq_none (lambdaSnapshotStep ql) (cap 30 (m * 60)) 0 (fun i _ => hl (0 + i))]
  · rw [wait_backup_char,
      firstSuccessAux_eq_none (backupJobStep qb) (cap 60 tb) 0 (fun i _ => hb (0 + i))]

/-- C2 witness: the amended statement at concrete non-terminal status streams. -/
theorem c2_amended_timeout_outcomes_witness :
    wait_for_snapshot_completion_demo (fun _ => SnapshotQuery.status "creating") 90
        = SnapshotDemoWait.raisesTimeoutError (cap 30 90) (cap 30 90)
    ∧ wait_for_snapshot_completion_lambda (fun _ => SnapshotQuery.status "creating") 1
        = LambdaSnapshotWait.returnsFalse (cap 30 (1 * 60)) (cap 30 (1 * 60))
    ∧ wait_for_backup_completion (fun _ => BackupJobQuery.jobState "RUNNING" "") 60
        = BackupJobWait.raisesTimeoutError (cap 60 60) (cap 60 60) :=
  c2_amended_timeout_outcomes _ _ _ 90 1 60 (fun _ => rfl) (fun _ => rfl) (fun _ => rfl)

/-- C3 counterexample.  The claim states polling stops immediately at the first
observed terminal status.  With a status query reporting the terminal status
`failed` from the very first poll and a 90 second budget, the demo loop
performs 3 queries — it keeps polling past the terminal observation, because
the raise on `failed` is caught by the loop own handler — and ends in the
timeout outcome. -/
theorem c3_counterexample_failed_does_not_stop_polling :
    wait_for_snapshot_completion_demo (fun _ => SnapshotQuery.status "failed") 90
      = SnapshotDemoWait.raisesTimeoutError 3 3 := by
  decide

/-- C3, amended.  Exactly one outcome is produced per invocation, and polling
stops immediately at the first observed success-terminal status (after
`j + 1` queries when the first success is the `j`-th poll) or when the time
budget is exhausted (after `cap interval timeout` queries).  A
failure-terminal status does not stop polling — its raise is swallowed by the
loop own exception handler — so none of the loops ever produces a Failed
outcome. -/
theorem c3_amended_outcome_characterization (qd ql : Nat → SnapshotQuery)
    (qb : Nat → BackupJobQuery) (td m tb : Nat) :
    (wait_for_snapshot_completion_demo qd td =
      (match firstSuccessAux (snapshotDemoStep qd) (cap 30 td) 0 with
       | some (j, _) => SnapshotDemoWait.returnsTrue (j + 1) j
       | none => SnapshotDemoWait.raisesTimeoutError (cap 30 td) (cap 30 td)))
    ∧ (wait_for_snapshot_completion_lambda ql m =
      (match firstSuccessAux (lambdaSnapshotStep ql) (cap 30 (m * 60)) 0 with
       | some (j, _) => LambdaSnapshotWait.returnsTrue (j + 1) j
       | none => LambdaSnapshotWait.returnsFalse (cap 30 (m * 60)) (cap 30 (m * 60))))
    ∧ (wait_for_backup_completion qb tb =
      (match firstSuccessAux (backupJobStep qb) (cap 60 tb) 0 with
       | some (j, arn) => BackupJobWait.returnsRecoveryPointArn arn (j + 1) j
       | none => BackupJobWait.raisesTimeoutError (cap 60 tb) (cap 60 tb))) :=
  ⟨wait_demo_char qd td, wait_lambda_char ql m, wait_backup_char qb tb⟩

/-- C4.  Transient status-query errors are logged and polling continues: when
the first two polls raise and the third reports the success-terminal status,
the demo snapshot loop returns True and the backup loop returns the recovery
point ARN, each after exactly 3 queries (and 2 sleeps), provided the budget
allows a third poll. -/
theorem c4_transient_errors_then_success (qd : Nat → SnapshotQuery)
    (qb : Nat → BackupJobQuery) (td tb : Nat) (arn : String)
    (hd0 : qd 0 = .raisesError) (hd1 : qd 1 = .raisesError)
    (hd2 : qd 2 = .status "available") (htd : 60 < td)
    (hb0 : qb 0 = .raisesError) (hb1 : qb 1 = .raisesError)
    (hb2 : qb 2 = .jobState "COMPLETED" arn) (htb : 120 < tb) :
    wait_for_snapshot_completion_demo qd td = SnapshotDemoWait.returnsTrue 3 2
    ∧ wait_for_backup_completion qb tb = BackupJobWait.returnsRecoveryPointArn arn 3 2 := by
  constructor
  · rw [wait_demo_char]
    have hfs : firstSuccessAux (snapshotDemoStep qd) (cap 30 td) 0 = some (0 + 2, true) := by
      apply firstSuccessAux_eq_some (snapshotDemoStep qd) 2 (cap 30 td) 0 true
      · intro i hi
        rcases (by omega : i = 0 ∨ i = 1) with h | h
        · subst h; simp [snapshotDemoStep, hd0, PollStep.isSucc]
        · subst h; simp [snapshotDemoStep, hd1, PollStep.isSucc]
      · show snapshotDemoStep qd (0 + 2) = PollStep.success true
        have : (0 : Nat) + 2 = 2 := rfl
        rw [this]
        simp [snapshotDemoStep, hd2]
      · rw [cap_eq]; omega
    rw [hfs]
  · rw [wait_backup_char]
    have hfs : firstSuccessAux (backupJobStep qb) (cap 60 tb) 0 = some (0 + 2, arn) := by
      apply firstSuccessAux_eq_some (backupJobStep qb) 2 (cap 60 tb) 0 arn
      · intro i hi
        rcases (by omega : i = 0 ∨ i = 1) with h | h
        · subst h; simp [backupJobStep, hb0, PollStep.isSucc]
        · subst h; simp [backupJobStep, hb1, PollStep.isSucc]
      · show backupJobStep qb (0 + 2) = PollStep.success arn
        have : (0 : Nat) + 2 = 2 := rfl
        rw [this]
        simp [backupJobStep, hb2]
      · rw [cap_eq]; omega
    rw [hfs]

/-- C4 witness at concrete query streams and the call-site budgets. -/
theorem c4_transient_errors_then_success_witness :
    wait_for_snapshot_completion_demo
        (fun k => if k < 2 then SnapshotQuery.raisesError else SnapshotQuery.status "available")
        1800
      = SnapshotDemoWait.returnsTrue 3 2
    ∧ wait_for_backup_completion
        (fun k => if k < 2 then BackupJobQuery.raisesError
                  else BackupJobQuery.jobState "COMPLETED" "arn-recovery-1")
        3600
      = BackupJobWait.returnsRecoveryPointArn "arn-recovery-1" 3 2 :=
  c4_transient_errors_then_success _ _ 1800 3600 "arn-recovery-1"
    rfl rfl rfl (by omega) rfl rfl rfl (by omega)

/-- C5.  With a positive budget, a success-terminal status on the very first
poll makes each loop return its Completed outcome (with its payload, for the
backup job) after exactly one query and zero sleeps. -/
theorem c5_first_poll_success_no_sleep (qd ql : Nat → SnapshotQuery)
    (qb : Nat → BackupJobQuery) (td m tb : Nat) (arn : String)
    (hd : qd 0 = .status "available") (htd : 0 < td)
    (hl : ql 0 = .status "available") (hm : 0 < m)
    (hb : qb 0 = .jobState "COMPLETED" arn) (htb : 0 < tb) :
    wait_for_snapshot_completion_demo qd td = SnapshotDemoWait.returnsTrue 1 0
    ∧ wait_for_snapshot_completion_lambda ql m = LambdaSnapshotWait.returnsTrue 1 0
    ∧ wait_for_backup_completion qb tb = BackupJobWait.returnsRecoveryPointArn arn 1 0 := by
  refine ⟨?_, ?_, ?_⟩
  · rw [wait_demo_char]
    have hfs : firstSuccessAux (snapshotDemoStep qd) (cap 30 td) 0 = some (0 + 0, true) := by
      apply firstSuccessAux_eq_some (snapshotDemoStep qd) 0 (cap 30 td) 0 true
      · intro i hi; omega
      · show snapshotDemoStep qd (0 + 0) = PollStep.success true
        simp [snapshotDemoStep, hd]
      · rw [cap_eq]; omega
    rw [hfs]
  · rw [wait_lambda_char]
    have hfs : firstSuccessAux (lambdaSnapshotStep ql) (cap 30 (m * 60)) 0
        = some (0 + 0, true) := by
      apply firstSuccessAux_eq_some (lambdaSnapshotStep ql) 0 (cap 30 (m * 60)) 0 true
      · intro i hi; omega
      · show lambdaSnapshotStep ql (0 + 0) = PollStep.success true
        simp [lambdaSnapshotStep, hl]
      · rw [cap_eq]; omega
    rw [hfs]
  · rw [wait_backup_char]
    have hfs : firstSuccessAux (backupJobStep qb) (cap 60 tb) 0 = some (0 + 0, arn) := by
      apply firstSuccessAux_eq_some (backupJobStep qb) 0 (cap 60 tb) 0 arn
      · intro i hi; omega
      · show backupJobStep qb (0 + 0) = PollStep.success arn
        simp [backupJobStep, hb]
      · rw [cap_eq]; omega
    rw [hfs]

/-- C5 witness at constant success streams and the source budgets. -/
theorem c5_first_poll_success_no_sleep_witness :
    wait_for_snapshot_completion_demo (fun _ => SnapshotQuery.status "available") 1800
      = SnapshotDemoWait.returnsTrue 1 0
    ∧ wait_for_snapshot_completion_lambda (fun _ => SnapshotQuery.status "available") 10
      = LambdaSnapshotWait.returnsTrue 1 0
    ∧ wait_for_backup_completion (fun _ => BackupJobQuery.jobState "COMPLETED" "arn-recovery-2")
        3600
      = BackupJobWait.returnsRecoveryPointArn "arn-recovery-2" 1 0 :=
  c5_first_poll_success_no_sleep _ _ _ 1800 10 3600 "arn-recovery-2"
    rfl (by omega) rfl (by omega) rfl (by omega)

/-- C6 counterexample.  The claim states that every policy with
`maximum_wait < interval` yields TimedOut.  With a 20 second budget (less than
the 30 second interval) and a first poll that reports `available`, the demo
loop returns True — the Completed outcome, not TimedOut. -/
theorem c6_counterexample_short_budget_first_poll_success :
    wait_for_snapshot_completion_demo (fun _ => SnapshotQuery.status "available") 20
      = SnapshotDemoWait.returnsTrue 1 0 := by
  decide

/-- C6, amended.  For every poll policy whose maximum wait is strictly less
than the poll interval, at most one status query is performed (`cap ≤ 1`);
if that query does not observe a success-terminal status the loop yields its
timeout outcome.  (A success-terminal first observation instead yields the
Completed outcome.) -/
theorem c6_amended_short_budget_timeout (qd : Nat → SnapshotQuery)
    (qb : Nat → BackupJobQuery) (td tb : Nat) (htd : td < 30) (htb : tb < 60)
    (hd : (snapshotDemoStep qd 0).isSucc = false)
    (hb : (backupJobStep qb 0).isSucc = false) :
    (wait_for_snapshot_completion_demo qd td
        = SnapshotDemoWait.raisesTimeoutError (cap 30 td) (cap 30 td) ∧ cap 30 td ≤ 1)
    ∧ (wait_for_backup_completion qb tb
        = BackupJobWait.raisesTimeoutError (cap 60 tb) (cap 60 tb) ∧ cap 60 tb ≤ 1) := by
  have hcd : cap 30 td ≤ 1 := by rw [cap_eq]; omega
  have hcb : cap 60 tb ≤ 1 := by rw [cap_eq]; omega
  refine ⟨⟨?_, hcd⟩, ⟨?_, hcb⟩⟩
  · rw [wait_demo_char,
      firstSuccessAux_eq_none (snapshotDemoStep qd) (cap 30 td) 0 (fun i hi => by
        have : i = 0 := by omega
        subst this
        simpa using hd)]
  · rw [wait_backup_char,
      firstSuccessAux_eq_none (backupJobStep qb) (cap 60 tb) 0 (fun i hi => by
        have : i = 0 := by omega
        subst this
        simpa using hb)]

/-- C6 witness: short budgets with a pending first observation. -/
theorem c6_amended_short_budget_timeout_witness :
    (wait_for_snapshot_completion_demo (fun _ => SnapshotQuery.status "creating") 20
        = SnapshotDemoWait.raisesTimeoutError (cap 30 20) (cap 30 20) ∧ cap 30 20 ≤ 1)
    ∧ (wait_for_backup_completion (fun _ => BackupJobQuery.jobState "RUNNING" "") 45
        = BackupJobWait.raisesTimeoutError (cap 60 45) (cap 60 45) ∧ cap 60 45 ≤ 1) :=
  c6_amended_short_budget_timeout _ _ 20 45 (by omega) (by omega) rfl rfl

/-- C7.  With the 30 second interval of the demo snapshot loop, a 60 second
budget and a status query that reports the non-terminal `PENDING` on every
poll, the loop performs exactly 2 status queries and then signals its timeout
outcome (in this flow, the raised timeout exception). -/
theorem c7_always_pending_times_out_after_two_queries (q : Nat → SnapshotQuery)
    (h : ∀ k, q k = SnapshotQuery.status "PENDING") :
    wait_for_snapshot_completion_demo q 60 = SnapshotDemoWait.raisesTimeoutError 2 2 := by
  rw [wait_demo_char,
    firstSuccessAux_eq_none (snapshotDemoStep q) (cap 30 60) 0 (fun i _ => by
      simp [snapshotDemoStep, h, PollStep.isSucc])]
  rfl

/-- C7 witness at the constant `PENDING` stream. -/
theorem c7_always_pending_times_out_after_two_queries_witness :
    wait_for_snapshot_completion_demo (fun _ => SnapshotQuery.status "PENDING") 60
      = SnapshotDemoWait.raisesTimeoutError 2 2 :=
  c7_always_pending_times_out_after_two_queries _ (fun _ => rfl)

/-- C8.  When the status of the tracked handle is already terminal — the
status stream is constant at a terminal status — the outcome of a wait does
not depend on how many observations happened before the call: two invocations
that view the stream from different starting offsets return the same outcome. -/
theorem c8_terminal_constant_status_idempotent (qd : Nat → SnapshotQuery)
    (qb : Nat → BackupJobQuery) (td tb o1 o2 : Nat)
    (hcd : ∀ k, qd k = qd 0) (htermd : (qd 0).isTerminalStatus = true)
    (hcb : ∀ k, qb k = qb 0) (htermb : (qb 0).isTerminalState = true) :
    wait_for_snapshot_completion_demo (shiftQuery o1 qd) td
      = wait_for_snapshot_completion_demo (shiftQuery o2 qd) td
    ∧ wait_for_backup_completion (shiftQuery o1 qb) tb
      = wait_for_backup_completion (shiftQuery o2 qb) tb := by
  have hqd : shiftQuery o1 qd = shiftQuery o2 qd := by
    funext k
    simp only [shiftQuery]
    rw [hcd (o1 + k), hcd (o2 + k)]
  have hqb : shiftQuery o1 qb = shiftQuery o2 qb := by
    funext k
    simp only [shiftQuery]
    rw [hcb (o1 + k), hcb (o2 + k)]
  rw [hqd, hqb]
  exact ⟨rfl, rfl⟩

/-- C8 witness: a handle already `available` (demo) and already `FAILED`
(backup job), viewed from offsets 0 and 7. -/
theorem c8_terminal_constant_status_idempotent_witness :
    wait_for_snapshot_completion_demo (shiftQuery 0 (fun _ => SnapshotQuery.status "available")) 60
      = wait_for_snapshot_completion_demo
          (shiftQuery 7 (fun _ => SnapshotQuery.status "available")) 60
    ∧ wait_for_backup_completion (shiftQuery 0 (fun _ => BackupJobQuery.jobState "FAILED" "")) 120
      = wait_for_backup_completion
          (shiftQuery 7 (fun _ => BackupJobQuery.jobState "FAILED" "")) 120 :=
  c8_terminal_constant_status_idempotent _ _ 60 120 0 7 (fun _ => rfl) rfl (fun _ => rfl) rfl

/-- C9.  `lambda_handler` never lets an exception escape: every invocation
returns a dictionary whose `statusCode` is 200 or 500.  A falsy
`target_account_id` yields the 500 dictionary with the `ValueError` message
and no snapshot creation is initiated.  When the handler construction and
`create_cluster_snapshot` succeed (and the target id is truthy), the result is
the 200 dictionary carrying the generated snapshot id and one of the four
status strings; when either fails, their error message comes back in the 500
dictionary. -/
theorem c9_handler_total_status_codes (env : AwsEnv) (event : Event) :
    ((lambda_handler env event).result.statusCode = 200
      ∨ (lambda_handler env event).result.statusCode = 500)
    ∧ (truthyStr event.target_account_id = false →
        (lambda_handler env event).result = HandlerResult.err "target_account_id is required"
        ∧ (lambda_handler env event).createCalled = false)
    ∧ (truthyStr event.target_account_id = true → env.initFailure = none →
        env.createFailure = none →
        ∃ body, (lambda_handler env event).result = HandlerResult.ok body
          ∧ body.snapshot_id = "aca-lambda-snapshot-" ++ env.timestamp
          ∧ (body.status = "completed_and_shared" ∨ body.status = "completed_not_shared"
             ∨ body.status = "snapshot_in_progress" ∨ body.status = "snapshot_initiated_async"))
    ∧ (truthyStr event.target_account_id = true → ∀ e, env.initFailure = some e →
        (lambda_handler env event).result = HandlerResult.err e
        ∧ (lambda_handler env event).createCalled = false)
    ∧ (truthyStr event.target_account_id = true → env.initFailure = none →
        ∀ e, env.createFailure = some e →
        (lambda_handler env event).result = HandlerResult.err e) := by
  refine ⟨?_, ?_, ?_, ?_, ?_⟩
  · cases htr : truthyStr event.target_account_id with
    | false =>
      right
      rw [lambda_handler_no_target env event htr]
      rfl
    | true =>
      cases hi : env.initFailure with
      | some e =>
        right
        rw [lambda_handler_init_failure env event e htr hi]
        rfl
      | none =>
        cases hc : env.createFailure with
        | some e =>
          right
          rw [lambda_handler_create_failure env event e htr hi hc]
          rfl
        | none =>
          left
          rw [lambda_handler_ok_eq env event htr hi hc]
          rfl
  · intro htr
    rw [lambda_handler_no_target env event htr]
    exact ⟨rfl, rfl⟩
  · intro htr hi hc
    rw [lambda_handler_ok_eq env event htr hi hc]
    exact ⟨_, rfl, rfl, waitShareStatus_cases env (event.wait_for_completion.getD false)⟩
  · intro htr e hi
    rw [lambda_handler_init_failure env event e htr hi]
    exact ⟨rfl, rfl⟩
  · intro htr hi e hc
    rw [lambda_handler_create_failure env event e htr hi hc]

/-- C9 witness: the missing-target event returns the 500 dictionary without
initiating snapshot creation, and a healthy environment with a well-formed
event returns the 200 dictionary with the snapshot id and a status field. -/
theorem c9_handler_total_status_codes_witness :
    ((lambda_handler envHappy eventNoTarget).result
        = HandlerResult.err "target_account_id is required"
      ∧ (lambda_handler envHappy eventNoTarget).createCalled = false)
    ∧ (∃ body, (lambda_handler envHappy eventWithTarget).result = HandlerResult.ok body
        ∧ body.snapshot_id = "aca-lambda-snapshot-" ++ envHappy.timestamp
        ∧ (body.status = "completed_and_shared" ∨ body.status = "completed_not_shared"
           ∨ body.status = "snapshot_in_progress" ∨ body.status = "snapshot_initiated_async")) :=
  ⟨(c9_handler_total_status_codes envHappy eventNoTarget).2.1 rfl,
   (c9_handler_total_status_codes envHappy eventWithTarget).2.2.1 rfl rfl rfl⟩

/-- C10.  `cleanup_old_snapshots` issues delete requests exactly for the listed
snapshots whose identifier starts with `aca-lambda-snapshot-` and whose
creation time is older than the retention cutoff (every other snapshot of the
cluster is untouched); it returns the number of those deletes that succeeded,
and returns 0 (issuing no deletes) when the listing call fails. -/
theorem c10_cleanup_scope_and_count (env : AwsEnv) (cluster_identifier : String)
    (retention_days : Nat) :
    ((cleanup_old_snapshots env cluster_identifier retention_days).2
        = ((env.listSnapshots.getD []).filter
            (eligibleForCleanup (cutoffTime env retention_days))).map
              SnapshotInfo.snapshotIdentifier)
    ∧ ((cleanup_old_snapshots env cluster_identifier retention_days).1
        = (((env.listSnapshots.getD []).filter
            (eligibleForCleanup (cutoffTime env retention_days))).filter
              (fun s => !env.deleteFails s.snapshotIdentifier)).length)
    ∧ (env.listSnapshots = none →
        cleanup_old_snapshots env cluster_identifier retention_days = (0, [])) := by
  cases hl : env.listSnapshots with
  | none => simp [cleanup_old_snapshots, hl]
  | some snaps =>
    have he : cleanup_old_snapshots env cluster_identifier retention_days
        = snaps.foldl (cleanupStep env (cutoffTime env retention_days)) (0, []) := by
      unfold cleanup_old_snapshots
      rw [hl]
    rw [he, cleanup_foldl env (cutoffTime env retention_days) snaps (0, [])]
    simp [hl]

/-- C10 witness: a failing listing deletes nothing and returns 0. -/
theorem c10_cleanup_scope_and_count_witness :
    cleanup_old_snapshots envListingFails "aca-redshift-cluster" 7 = (0, []) :=
  (c10_cleanup_scope_and_count envListingFails "aca-redshift-cluster" 7).2.2 rfl

end AcaBackup
